import Mathlib

/-!
Shallow embedding of the `expense_manager` package (currency conversion,
wallet/expense domain model, and the `ExpenseManager` registry), together
with theorems settling the specification claims.  Python floats are
modelled by rationals; Python exceptions by `Except`/result-state pairs.
-/

namespace ExpenseApp

/-- Application-level errors raised by the package
(`CurrencyNotSupportedError`, `WalletExistsError`, `WalletNotFoundError`). -/
inductive AppError where
  | CurrencyNotSupported (code : String)
  | WalletExists (name : String)
  | WalletNotFound (name : String)
deriving DecidableEq, Repr

/-- `SUPPORTED_CURRENCIES` from `currency.py`: code to rate relative to USD,
in the source's insertion order. -/
def SUPPORTED_CURRENCIES : List (String × ℚ) :=
  [("USD", 1), ("EUR", 92/100), ("GBP", 81/100), ("JPY", 140), ("AUD", 3/2)]

/-- `BASE_CURRENCY` from `currency.py`. -/
def BASE_CURRENCY : String := "USD"

/-- `currency in SUPPORTED_CURRENCIES` (dict membership test). -/
def isSupported (currency : String) : Bool :=
  (SUPPORTED_CURRENCIES.lookup currency).isSome

/-- `SUPPORTED_CURRENCIES[currency]`, meaningful only after validation. -/
def rate (currency : String) : ℚ :=
  (SUPPORTED_CURRENCIES.lookup currency).getD 0

/-- `validate_currency` from `currency.py`. -/
def validate_currency (currency : String) : Except AppError Unit :=
  if isSupported currency then Except.ok ()
  else Except.error (AppError.CurrencyNotSupported currency)

/-- `convert` from `currency.py`: identity short-circuit on equal codes,
otherwise two hops through the base currency. -/
def convert (amount : ℚ) (from_currency to_currency : String) : Except AppError ℚ := do
  _ ← validate_currency from_currency
  _ ← validate_currency to_currency
  if from_currency = to_currency then
    return amount
  else
    let from_rate := rate from_currency
    let amount_in_base := amount / from_rate
    let to_rate := rate to_currency
    return amount_in_base * to_rate

/-- `list_supported_currencies` from `currency.py` (copy of the table). -/
def list_supported_currencies : List (String × ℚ) :=
  SUPPORTED_CURRENCIES

/-- Python `str.lower()` on the ASCII names used as registry keys,
applied character by character (kernel-evaluable, unlike `String.toLower`,
to which it agrees on ASCII text). -/
def pyLower (s : String) : String :=
  String.mk (s.data.map Char.toLower)

/-- `Expense` dataclass from `models.py`. -/
structure Expense where
  description : String
  amount : ℚ
  category : String
deriving DecidableEq, Repr

/-- `Wallet` dataclass from `models.py`. -/
structure Wallet where
  name : String
  currency : String
  balance : ℚ
  expenses : List Expense
deriving DecidableEq, Repr

/-- `Wallet.add_expense`: append the expense and decrement the balance. -/
def Wallet.add_expense (w : Wallet) (expense : Expense) : Wallet :=
  { w with expenses := w.expenses ++ [expense],
           balance := w.balance - expense.amount }

/-- `Wallet.total_spent`: sum of recorded expense amounts. -/
def Wallet.total_spent (w : Wallet) : ℚ :=
  (w.expenses.map (fun exp => exp.amount)).sum

/-- One entry of `wallet_data["expenses"]` in a deserialized snapshot;
`category` is optional (`expense.get("category", "uncategorized")`). -/
structure ExpenseData where
  description : String
  amount : ℚ
  category : Option String
deriving DecidableEq, Repr

/-- One entry of `payload["wallets"]`; `balance` and `expenses` are optional
(`wallet_data.get("balance", 0.0)`, `wallet_data.get("expenses", [])`). -/
structure WalletData where
  name : String
  currency : String
  balance : Option ℚ
  expenses : Option (List ExpenseData)
deriving DecidableEq, Repr

/-- The snapshot shape `\x7bwallets: [...]\x7d` consumed and produced by the
manager. -/
structure ManagerData where
  wallets : List WalletData
deriving DecidableEq, Repr

/-- The `Wallet(...)` construction inside `ExpenseManager.__init__`,
applying the snapshot defaults. -/
def walletOfData (wallet_data : WalletData) : Wallet :=
  { name := wallet_data.name
    currency := wallet_data.currency
    balance := wallet_data.balance.getD 0
    expenses :=
      (wallet_data.expenses.getD []).map fun expense =>
        { description := expense.description
          amount := expense.amount
          category := expense.category.getD "uncategorized" } }

/-- Python-`dict` assignment `d[k] = v`: replace the value in place when the
key is present (keeping the original position), otherwise append. -/
def dictInsert (d : List (String × Wallet)) (k : String) (v : Wallet) :
    List (String × Wallet) :=
  if d.any (fun p => p.1 = k) then
    d.map (fun p => if p.1 = k then (p.1, v) else p)
  else
    d ++ [(k, v)]

/-- `ExpenseManager`: registry of wallets keyed by lower-cased name.
A Python `dict` is embedded as an insertion-ordered association list. -/
structure ExpenseManager where
  wallets : List (String × Wallet)
deriving DecidableEq, Repr

/-- `ExpenseManager.__init__(data)`: `data or \x7b"wallets": []\x7d`, then each
wallet entry is stored under `wallet.name.lower()`. -/
def ExpenseManager.init (data : Option ManagerData) : ExpenseManager :=
  let payload := data.getD { wallets := [] }
  { wallets :=
      payload.wallets.foldl
        (fun d wallet_data =>
          dictInsert d (pyLower (walletOfData wallet_data).name)
            (walletOfData wallet_data))
        [] }

/-- `ExpenseManager.get_wallet`. -/
def ExpenseManager.get_wallet (m : ExpenseManager) (name : String) :
    Except AppError Wallet :=
  let key := pyLower name
  match m.wallets.lookup key with
  | none => Except.error (AppError.WalletNotFound name)
  | some w => Except.ok w

/-- `ExpenseManager.list_wallets`: the registry's values in insertion order. -/
def ExpenseManager.list_wallets (m : ExpenseManager) : List Wallet :=
  m.wallets.map (fun p => p.2)

/-- `ExpenseManager.create_wallet`.  The pair result carries the registry
state at return or raise time (exceptions do not roll back state). -/
def ExpenseManager.create_wallet (m : ExpenseManager) (name currency : String)
    (balance : ℚ) : Except AppError Wallet × ExpenseManager :=
  let key := pyLower name
  if m.wallets.any (fun p => p.1 = key) then
    (Except.error (AppError.WalletExists name), m)
  else
    match validate_currency currency with
    | Except.error e => (Except.error e, m)
    | Except.ok _ =>
        let wallet : Wallet :=
          { name := name, currency := currency, balance := balance, expenses := [] }
        (Except.ok wallet, { wallets := dictInsert m.wallets key wallet })

/-- `ExpenseManager.add_expense`: resolve the wallet, build the record,
delegate to `Wallet.add_expense` (mutating the aliased registry entry). -/
def ExpenseManager.add_expense (m : ExpenseManager)
    (wallet_name description : String) (amount : ℚ) (category : String) :
    Except AppError Expense × ExpenseManager :=
  match m.get_wallet wallet_name with
  | Except.error e => (Except.error e, m)
  | Except.ok _ =>
      let expense : Expense :=
        { description := description, amount := amount, category := category }
      (Except.ok expense,
       { wallets :=
           m.wallets.map fun p =>
             if p.1 = pyLower wallet_name then (p.1, p.2.add_expense expense)
             else p })

/-- The per-wallet dictionary built inside `ExpenseManager.to_dict`
(`asdict(expense)` always emits every field). -/
def walletToData (wallet : Wallet) : WalletData :=
  { name := wallet.name
    currency := wallet.currency
    balance := some wallet.balance
    expenses :=
      some (wallet.expenses.map fun expense =>
        { description := expense.description
          amount := expense.amount
          category := some expense.category }) }

/-- `ExpenseManager.to_dict`: serialize the registry. -/
def ExpenseManager.to_dict (m : ExpenseManager) : ManagerData :=
  { wallets := m.list_wallets.map walletToData }

/-- One entry of the dashboard's `wallets` summary list. -/
structure DashboardWalletSummary where
  name : String
  currency : String
  balance : ℚ
  balance_in_target : ℚ
  total_spent : ℚ
  total_spent_in_target : ℚ
deriving DecidableEq, Repr

/-- The mapping returned by `consolidated_dashboard`. -/
structure Dashboard where
  target_currency : String
  total_balance : ℚ
  total_spent : ℚ
  net_position : ℚ
  wallets : List DashboardWalletSummary
  supported_currencies : List (String × ℚ)
deriving DecidableEq, Repr

/-- The `for wallet in self.list_wallets()` loop of `consolidated_dashboard`,
threading the two accumulators and the summary list. -/
def dashboardLoop (target_currency : String) :
    List Wallet → ℚ → ℚ → List DashboardWalletSummary →
    Except AppError (ℚ × ℚ × List DashboardWalletSummary)
  | [], total_balance, total_spent, wallets_summary =>
      Except.ok (total_balance, total_spent, wallets_summary)
  | wallet :: rest, total_balance, total_spent, wallets_summary => do
      let balance_converted ← convert wallet.balance wallet.currency target_currency
      let spent_converted ← convert wallet.total_spent wallet.currency target_currency
      dashboardLoop target_currency rest (total_balance + balance_converted)
        (total_spent + spent_converted)
        (wallets_summary ++
          [{ name := wallet.name
             currency := wallet.currency
             balance := wallet.balance
             balance_in_target := balance_converted
             total_spent := wallet.total_spent
             total_spent_in_target := spent_converted }])

/-- `ExpenseManager.consolidated_dashboard`. -/
def ExpenseManager.consolidated_dashboard (m : ExpenseManager)
    (target_currency : String) : Except AppError Dashboard := do
  _ ← validate_currency target_currency
  let (total_balance, total_spent, wallets_summary) ←
    dashboardLoop target_currency m.list_wallets 0 0 []
  return { target_currency := target_currency
           total_balance := total_balance
           total_spent := total_spent
           net_position := total_balance - total_spent
           wallets := wallets_summary
           supported_currencies := list_supported_currencies }

/-- One entry of the wallet report's `expenses` list. -/
structure ReportExpense where
  description : String
  amount : ℚ
  category : String
  amount_in_target : ℚ
deriving DecidableEq, Repr

/-- The mapping returned by `wallet_report`. -/
structure WalletReport where
  wallet : String
  wallet_currency : String
  balance : ℚ
  balance_in_target : ℚ
  expenses : List ReportExpense
  target_currency : String
deriving DecidableEq, Repr

/-- The per-expense conversion comprehension inside `wallet_report`. -/
def reportExpenses (wallet_currency target : String) :
    List Expense → Except AppError (List ReportExpense)
  | [] => Except.ok []
  | expense :: rest => do
      let amount_in_target ← convert expense.amount wallet_currency target
      let others ← reportExpenses wallet_currency target rest
      return { description := expense.description
               amount := expense.amount
               category := expense.category
               amount_in_target := amount_in_target } :: others

/-- `ExpenseManager.wallet_report`.  `target_currency or wallet.currency`
follows Python truthiness: `None` and the empty string both fall back. -/
def ExpenseManager.wallet_report (m : ExpenseManager) (wallet_name : String)
    (target_currency : Option String) : Except AppError WalletReport := do
  let wallet ← m.get_wallet wallet_name
  let target :=
    match target_currency with
    | none => wallet.currency
    | some t => if t = "" then wallet.currency else t
  _ ← validate_currency target
  let balance_in_target ← convert wallet.balance wallet.currency target
  let expenses ← reportExpenses wallet.currency target wallet.expenses
  return { wallet := wallet.name
           wallet_currency := wallet.currency
           balance := wallet.balance
           balance_in_target := balance_in_target
           expenses := expenses
           target_currency := target }

/-- The fixed set of supported codes, as the spec enumerates it. -/
def supportedCodes : List String :=
  ["USD", "EUR", "GBP", "JPY", "AUD"]

/-- The value `convert` returns on supported codes: identity on equal codes,
otherwise the two-hop route through the base currency. -/
def convertValue (amount : ℚ) (from_currency to_currency : String) : ℚ :=
  if from_currency = to_currency then amount
  else amount / rate from_currency * rate to_currency

/-- The dashboard summary entry built for one wallet (on supported codes). -/
def summaryOf (target_currency : String) (w : Wallet) : DashboardWalletSummary :=
  { name := w.name
    currency := w.currency
    balance := w.balance
    balance_in_target := convertValue w.balance w.currency target_currency
    total_spent := w.total_spent
    total_spent_in_target := convertValue w.total_spent w.currency target_currency }

/-! ### Helper lemmas about the currency table -/

theorem isSupported_iff (c : String) :
    isSupported c = true ↔
      c = "USD" ∨ c = "EUR" ∨ c = "GBP" ∨ c = "JPY" ∨ c = "AUD" := by
  simp only [isSupported, SUPPORTED_CURRENCIES, List.lookup]
  repeat' split
  all_goals simp_all [beq_iff_eq]

theorem isSupported_mem_iff (c : String) :
    isSupported c = true ↔ c ∈ supportedCodes := by
  rw [isSupported_iff]
  simp [supportedCodes]

theorem rate_ne_zero (c : String) (h : isSupported c = true) : rate c ≠ 0 := by
  rcases (isSupported_iff c).mp h with h | h | h | h | h <;> subst h <;>
    simp [rate, SUPPORTED_CURRENCIES, List.lookup]

theorem validate_currency_ok (c : String) (h : isSupported c = true) :
    validate_currency c = Except.ok () := by
  simp [validate_currency, h]

theorem validate_currency_error (c : String) (h : isSupported c = false) :
    validate_currency c = Except.error (AppError.CurrencyNotSupported c) := by
  simp [validate_currency, h]

theorem convert_eq_ok (x : ℚ) (a b : String)
    (ha : isSupported a = true) (hb : isSupported b = true) :
    convert x a b = Except.ok (convertValue x a b) := by
  simp only [convert, validate_currency, ha, hb, convertValue, if_true]
  split_ifs <;> rfl

theorem convert_error_left (x : ℚ) (a b : String) (ha : isSupported a = false) :
    convert x a b = Except.error (AppError.CurrencyNotSupported a) := by
  simp only [convert, validate_currency, ha, Bool.false_eq_true, if_false]
  rfl

theorem convert_error_right (x : ℚ) (a b : String)
    (ha : isSupported a = true) (hb : isSupported b = false) :
    convert x a b = Except.error (AppError.CurrencyNotSupported b) := by
  simp only [convert, validate_currency, ha, hb, Bool.false_eq_true, if_true, if_false]
  rfl

/-! ### Claim theorems -/

/-- C1: for supported codes `a` and `b`, `convert x a b` returns `x` itself
when `a = b` (no arithmetic applied), and otherwise returns
`x / rate a * rate b`, routing through the USD base in that two-hop order. -/
theorem convert_identity_and_two_hop (x : ℚ) (a b : String)
    (ha : isSupported a = true) (hb : isSupported b = true) :
    (a = b → convert x a b = Except.ok x) ∧
    (a ≠ b → convert x a b = Except.ok (x / rate a * rate b)) := by
  rw [convert_eq_ok x a b ha hb]
  constructor <;> intro h <;> simp [convertValue, h]

/-- Witness for C1 at `x = 5`, `a = "EUR"`, `b = "JPY"` and `a = b = "EUR"`. -/
theorem convert_identity_and_two_hop_witness :
    convert 5 "EUR" "EUR" = Except.ok 5 ∧
    convert 5 "EUR" "JPY" = Except.ok (5 / rate "EUR" * rate "JPY") := by
  refine ⟨(convert_identity_and_two_hop 5 "EUR" "EUR" ?_ ?_).1 rfl,
          (convert_identity_and_two_hop 5 "EUR" "JPY" ?_ ?_).2 ?_⟩ <;> decide

/-- C4: `validate_currency c` fails with `CurrencyNotSupported` exactly when
`c` is outside the fixed set, succeeds exactly on members, and `convert`
fails with `CurrencyNotSupported` exactly when either argument-position code
is outside the set. -/
theorem validate_convert_supported_set :
    (∀ c : String,
      (validate_currency c = Except.error (AppError.CurrencyNotSupported c) ↔
        c ∉ supportedCodes) ∧
      (validate_currency c = Except.ok () ↔ c ∈ supportedCodes)) ∧
    (∀ (x : ℚ) (a b : String),
      (∃ d, convert x a b = Except.error (AppError.CurrencyNotSupported d)) ↔
        a ∉ supportedCodes ∨ b ∉ supportedCodes) := by
  constructor
  · intro c
    constructor
    · rw [← isSupported_mem_iff]
      cases h : isSupported c <;>
        simp [validate_currency_ok, validate_currency_error, h, validate_currency]
    · rw [← isSupported_mem_iff]
      cases h : isSupported c <;>
        simp [validate_currency_ok, validate_currency_error, h, validate_currency]
  · intro x a b
    rw [← isSupported_mem_iff, ← isSupported_mem_iff]
    cases ha : isSupported a
    · simp [convert_error_left x a b ha]
    · cases hb : isSupported b
      · simp [convert_error_right x a b ha hb]
      · simp [convert_eq_ok x a b ha hb]

/-- C6: converting between supported codes and back returns the original
amount; in the rational model the round trip is exact, which is within any
floating-point tolerance. -/
theorem convert_round_trip (x : ℚ) (a b : String)
    (ha : isSupported a = true) (hb : isSupported b = true) :
    (convert x a b).bind (fun y => convert y b a) = Except.ok x := by
  by_cases hab : a = b
  · subst hab
    rw [convert_eq_ok x a a ha ha]
    simp [Except.bind, convert_eq_ok _ a a ha ha, convertValue]
  · rw [convert_eq_ok x a b ha hb]
    simp only [Except.bind]
    rw [convert_eq_ok _ b a hb ha]
    simp only [convertValue, if_neg hab, if_neg (Ne.symm hab)]
    congr 1
    have h1 := rate_ne_zero a ha
    have h2 := rate_ne_zero b hb
    field_simp
    ring

/-- Witness for C6 at `x = 7`, `a = "GBP"`, `b = "AUD"`. -/
theorem convert_round_trip_witness :
    (convert 7 "GBP" "AUD").bind (fun y => convert y "AUD" "GBP") =
      Except.ok 7 := by
  exact convert_round_trip 7 "GBP" "AUD" (by decide) (by decide)

/-- C3: `Wallet.add_expense` appends the record at the end of the ordered
expense sequence and decrements the balance by exactly the record's amount,
`total_spent` sums all recorded amounts, and the concrete scenario
(create "Personal" USD wallet with balance 1000, then spend 120 on
groceries) leaves balance 880 and total spent 120. -/
theorem add_expense_appends_and_decrements :
    (∀ (w : Wallet) (e : Expense),
        (w.add_expense e).expenses = w.expenses ++ [e] ∧
        (w.add_expense e).balance = w.balance - e.amount) ∧
    (∀ w : Wallet,
        w.total_spent = (w.expenses.map (fun exp => exp.amount)).sum) ∧
    ((((ExpenseManager.init none).create_wallet "Personal" "USD" 1000).2.add_expense
        "Personal" "Groceries" 120 "food").2.get_wallet "Personal").map
      Wallet.balance = Except.ok 880 ∧
    ((((ExpenseManager.init none).create_wallet "Personal" "USD" 1000).2.add_expense
        "Personal" "Groceries" 120 "food").2.get_wallet "Personal").map
      Wallet.total_spent = Except.ok 120 := by
  refine ⟨fun w e => ⟨rfl, rfl⟩, fun w => rfl, ?_, ?_⟩ <;>
  · simp only [ExpenseManager.init, ExpenseManager.create_wallet,
      ExpenseManager.add_expense, ExpenseManager.get_wallet, dictInsert,
      validate_currency, isSupported, SUPPORTED_CURRENCIES, List.lookup, pyLower,
      Wallet.add_expense, Wallet.total_spent, Except.map]
    norm_num

/-- C8: the mutating manager operations are atomic: whenever `create_wallet`
or `add_expense` raises an error, the registry state carried out of the call
is exactly the input state — no partial mutation is observable. -/
theorem operations_atomic (m : ExpenseManager) :
    (∀ (name currency : String) (balance : ℚ) (e : AppError),
        (m.create_wallet name currency balance).1 = Except.error e →
        (m.create_wallet name currency balance).2 = m) ∧
    (∀ (wallet_name description : String) (amount : ℚ) (category : String)
        (e : AppError),
        (m.add_expense wallet_name description amount category).1 =
          Except.error e →
        (m.add_expense wallet_name description amount category).2 = m) := by
  constructor
  · intro name currency balance e h
    by_cases hk : m.wallets.any (fun p => p.1 = pyLower name)
    · simp [ExpenseManager.create_wallet, hk]
    · cases hv : validate_currency currency with
      | error e2 => simp [ExpenseManager.create_wallet, hk, hv]
      | ok u => simp [ExpenseManager.create_wallet, hk, hv] at h
  · intro wallet_name description amount category e h
    cases hg : m.get_wallet wallet_name with
    | error e2 => simp [ExpenseManager.add_expense, hg]
    | ok w => simp [ExpenseManager.add_expense, hg] at h

/-- Witness for C8: a failing `create_wallet` (bad currency) and a failing
`add_expense` (missing wallet) on the empty manager leave it unchanged. -/
theorem operations_atomic_witness :
    ((ExpenseManager.init none).create_wallet "A" "XXX" 0).2 =
      ExpenseManager.init none ∧
    ((ExpenseManager.init none).add_expense "A" "lunch" 1 "food").2 =
      ExpenseManager.init none := by
  constructor
  · exact (operations_atomic (ExpenseManager.init none)).1 "A" "XXX" 0
      (AppError.CurrencyNotSupported "XXX")
      (by simp [ExpenseManager.init, ExpenseManager.create_wallet,
            validate_currency, isSupported, SUPPORTED_CURRENCIES, List.lookup])
  · exact (operations_atomic (ExpenseManager.init none)).2 "A" "lunch" 1 "food"
      (AppError.WalletNotFound "A")
      (by simp [ExpenseManager.init, ExpenseManager.add_expense,
            ExpenseManager.get_wallet, List.lookup])

/-- C5: `create_wallet` fails with `WalletExists` when a wallet with the
same name up to case is registered, fails with `CurrencyNotSupported` when
(no clash and) the currency is unsupported, and otherwise registers and
returns a new wallet with the original casing, the given currency and
balance, and no expenses. -/
theorem create_wallet_spec (m : ExpenseManager) (name currency : String)
    (balance : ℚ)
    (hkeys : ∀ p ∈ m.wallets, p.1 = pyLower p.2.name) :
    ((∃ w ∈ m.list_wallets, pyLower w.name = pyLower name) →
        m.create_wallet name currency balance =
          (Except.error (AppError.WalletExists name), m)) ∧
    ((¬ ∃ w ∈ m.list_wallets, pyLower w.name = pyLower name) →
      isSupported currency = false →
        m.create_wallet name currency balance =
          (Except.error (AppError.CurrencyNotSupported currency), m)) ∧
    ((¬ ∃ w ∈ m.list_wallets, pyLower w.name = pyLower name) →
      isSupported currency = true →
        m.create_wallet name currency balance =
          (Except.ok { name := name, currency := currency, balance := balance,
                       expenses := [] },
           { wallets := m.wallets ++
               [(pyLower name,
                 { name := name, currency := currency, balance := balance,
                   expenses := [] })] })) := by
  have hcond : (m.wallets.any (fun p => p.1 = pyLower name)) = true ↔
      ∃ w ∈ m.list_wallets, pyLower w.name = pyLower name := by
    simp only [List.any_eq_true, decide_eq_true_eq, ExpenseManager.list_wallets,
      List.mem_map]
    constructor
    · rintro ⟨p, hp, hkey⟩
      exact ⟨p.2, ⟨p, hp, rfl⟩, (hkeys p hp ▸ hkey : pyLower p.2.name = pyLower name)⟩
    · rintro ⟨w, ⟨p, hp, rfl⟩, hkey⟩
      exact ⟨p, hp, (hkeys p hp).symm ▸ hkey⟩
  refine ⟨?_, ?_, ?_⟩
  · intro hex
    simp [ExpenseManager.create_wallet, hcond.mpr hex]
  · intro hnex hcur
    rw [← hcond, Bool.not_eq_true] at hnex
    simp [ExpenseManager.create_wallet, hnex, validate_currency, hcur]
  · intro hnex hcur
    rw [← hcond, Bool.not_eq_true] at hnex
    simp [ExpenseManager.create_wallet, hnex, validate_currency, hcur,
      dictInsert]

/-- Witness for C5: on a manager holding wallet "Personal", creating
"PERSONAL" fails with `WalletExists` and leaves the state unchanged, and
creating "Travel" with a supported currency succeeds and appends it. -/
theorem create_wallet_spec_witness :
    (((ExpenseManager.init none).create_wallet "Personal" "USD" 1000).2.create_wallet
        "PERSONAL" "EUR" 5) =
      (Except.error (AppError.WalletExists "PERSONAL"),
       ((ExpenseManager.init none).create_wallet "Personal" "USD" 1000).2) ∧
    (((ExpenseManager.init none).create_wallet "Personal" "USD" 1000).2.create_wallet
        "Travel" "EUR" 5) =
      (Except.ok { name := "Travel", currency := "EUR", balance := 5,
                   expenses := [] },
       { wallets :=
           ((ExpenseManager.init none).create_wallet "Personal" "USD" 1000).2.wallets ++
             [(pyLower "Travel",
               { name := "Travel", currency := "EUR", balance := 5,
                 expenses := [] })] }) := by
  constructor
  · exact (create_wallet_spec _ "PERSONAL" "EUR" 5 (by decide)).1 (by decide)
  · exact (create_wallet_spec _ "Travel" "EUR" 5 (by decide)).2.2 (by decide)
      (by decide)

theorem dashboardLoop_ok (t : String) (ht : isSupported t = true) :
    ∀ (ws : List Wallet), (∀ w ∈ ws, isSupported w.currency = true) →
    ∀ (tb ts : ℚ) (acc : List DashboardWalletSummary),
      dashboardLoop t ws tb ts acc =
        Except.ok
          (tb + (ws.map (fun w => convertValue w.balance w.currency t)).sum,
           ts + (ws.map (fun w => convertValue w.total_spent w.currency t)).sum,
           acc ++ ws.map (summaryOf t)) := by
  intro ws
  induction ws with
  | nil => intro h tb ts acc; simp [dashboardLoop]
  | cons w rest ih =>
    intro h tb ts acc
    have hw : isSupported w.currency = true := h w (by simp)
    have hrest : ∀ x ∈ rest, isSupported x.currency = true :=
      fun x hx => h x (by simp [hx])
    simp only [dashboardLoop, convert_eq_ok _ _ _ hw ht, Except.bind,
      ih hrest, List.map_cons, List.sum_cons]
    simp only [summaryOf, add_assoc, List.append_assoc, List.cons_append,
      List.nil_append]
    rfl

/-- C2 (amended): for a supported target and a manager all of whose wallets
carry supported currencies, `consolidated_dashboard` returns the report with
summed converted balances and spends accumulated in `list_wallets` order,
`net_position = total_balance - total_spent` exactly, the per-wallet
breakdown and the full currency table; for an unsupported target it fails
with `CurrencyNotSupported`. -/
theorem consolidated_dashboard_spec (m : ExpenseManager) (t : String) :
    (isSupported t = false →
        m.consolidated_dashboard t =
          Except.error (AppError.CurrencyNotSupported t)) ∧
    (isSupported t = true →
      (∀ w ∈ m.list_wallets, isSupported w.currency = true) →
        m.consolidated_dashboard t =
          Except.ok
            { target_currency := t
              total_balance :=
                (m.list_wallets.map
                  (fun w => convertValue w.balance w.currency t)).sum
              total_spent :=
                (m.list_wallets.map
                  (fun w => convertValue w.total_spent w.currency t)).sum
              net_position :=
                (m.list_wallets.map
                  (fun w => convertValue w.balance w.currency t)).sum -
                (m.list_wallets.map
                  (fun w => convertValue w.total_spent w.currency t)).sum
              wallets := m.list_wallets.map (summaryOf t)
              supported_currencies := list_supported_currencies }) := by
  constructor
  · intro ht
    simp only [ExpenseManager.consolidated_dashboard, validate_currency, ht,
      Bool.false_eq_true, if_false]
    rfl
  · intro ht hw
    simp only [ExpenseManager.consolidated_dashboard, validate_currency, ht,
      if_true, dashboardLoop_ok t ht m.list_wallets hw 0 0 [], zero_add,
      List.nil_append]
    rfl

/-- Refutation of C2 as stated: a manager state reachable by deserializing
a snapshot with an unsupported wallet currency makes
`consolidated_dashboard` fail even though the target ("USD") is supported,
instead of returning a report. -/
theorem consolidated_dashboard_counterexample :
    isSupported "USD" = true ∧
    (ExpenseManager.init (some { wallets :=
        [{ name := "Mystery", currency := "XXX", balance := some 1,
           expenses := some [] }] })).consolidated_dashboard "USD" =
      Except.error (AppError.CurrencyNotSupported "XXX") := by
  constructor
  · decide
  · rfl

/-- Witness for C2 on the spec's two-wallet example (USD 1000/120 spend,
EUR 500/200 spend) with target "USD", and an unsupported target "ZZZ". -/
theorem consolidated_dashboard_spec_witness :
    ((ExpenseManager.init (some { wallets :=
        [{ name := "Personal", currency := "USD", balance := some 1000,
           expenses := some [{ description := "Groceries", amount := 120,
                               category := some "food" }] },
         { name := "Euros", currency := "EUR", balance := some 500,
           expenses := some [{ description := "Rail", amount := 200,
                               category := some "travel" }] }] })).consolidated_dashboard
      "ZZZ" = Except.error (AppError.CurrencyNotSupported "ZZZ")) ∧
    ((ExpenseManager.init (some { wallets :=
        [{ name := "Personal", currency := "USD", balance := some 1000,
           expenses := some [{ description := "Groceries", amount := 120,
                               category := some "food" }] },
         { name := "Euros", currency := "EUR", balance := some 500,
           expenses := some [{ description := "Rail", amount := 200,
                               category := some "travel" }] }] })).consolidated_dashboard
      "USD" =
      Except.ok
        { target_currency := "USD"
          total_balance :=
            ((ExpenseManager.init (some { wallets :=
                [{ name := "Personal", currency := "USD", balance := some 1000,
                   expenses := some [{ description := "Groceries", amount := 120,
                                       category := some "food" }] },
                 { name := "Euros", currency := "EUR", balance := some 500,
                   expenses := some [{ description := "Rail", amount := 200,
                                       category := some "travel" }] }] })).list_wallets.map
              (fun w => convertValue w.balance w.currency "USD")).sum
          total_spent :=
            ((ExpenseManager.init (some { wallets :=
                [{ name := "Personal", currency := "USD", balance := some 1000,
                   expenses := some [{ description := "Groceries", amount := 120,
                                       category := some "food" }] },
                 { name := "Euros", currency := "EUR", balance := some 500,
                   expenses := some [{ description := "Rail", amount := 200,
                                       category := some "travel" }] }] })).list_wallets.map
              (fun w => convertValue w.total_spent w.currency "USD")).sum
          net_position :=
            ((ExpenseManager.init (some { wallets :=
                [{ name := "Personal", currency := "USD", balance := some 1000,
                   expenses := some [{ description := "Groceries", amount := 120,
                                       category := some "food" }] },
                 { name := "Euros", currency := "EUR", balance := some 500,
                   expenses := some [{ description := "Rail", amount := 200,
                                       category := some "travel" }] }] })).list_wallets.map
              (fun w => convertValue w.balance w.currency "USD")).sum -
            ((ExpenseManager.init (some { wallets :=
                [{ name := "Personal", currency := "USD", balance := some 1000,
                   expenses := some [{ description := "Groceries", amount := 120,
                                       category := some "food" }] },
                 { name := "Euros", currency := "EUR", balance := some 500,
                   expenses := some [{ description := "Rail", amount := 200,
                                       category := some "travel" }] }] })).list_wallets.map
              (fun w => convertValue w.total_spent w.currency "USD")).sum
          wallets :=
            (ExpenseManager.init (some { wallets :=
                [{ name := "Personal", currency := "USD", balance := some 1000,
                   expenses := some [{ description := "Groceries", amount := 120,
                                       category := some "food" }] },
                 { name := "Euros", currency := "EUR", balance := some 500,
                   expenses := some [{ description := "Rail", amount := 200,
                                       category := some "travel" }] }] })).list_wallets.map
              (summaryOf "USD")
          supported_currencies := list_supported_currencies }) := by
  constructor
  · exact (consolidated_dashboard_spec _ "ZZZ").1 (by decide)
  · exact (consolidated_dashboard_spec _ "USD").2 (by decide) (by decide)

theorem ok_bind {α β : Type} (a : α) (f : α → Except AppError β) :
    (do let x ← Except.ok a; f x) = f a := rfl

theorem reportExpenses_self (c : String) (hc : isSupported c = true)
    (es : List Expense) :
    reportExpenses c c es =
      Except.ok (es.map fun e =>
        { description := e.description, amount := e.amount,
          category := e.category, amount_in_target := e.amount }) := by
  induction es with
  | nil => rfl
  | cons e rest ih =>
    simp only [reportExpenses, convert_eq_ok _ _ _ hc hc, convertValue,
      if_pos rfl, Except.bind, ih, List.map_cons]
    rfl

/-- C7 (amended): for an existing wallet whose currency is supported,
`wallet_report` with no target currency defaults the target to the wallet's
own currency and returns `balance_in_target` equal to the balance exactly
(each expense likewise converted by the identity); for a missing name it
fails with `WalletNotFound`. -/
theorem wallet_report_default_spec (m : ExpenseManager) (name : String) :
    (m.wallets.lookup (pyLower name) = none →
      ∀ tc, m.wallet_report name tc =
        Except.error (AppError.WalletNotFound name)) ∧
    (∀ w : Wallet, m.wallets.lookup (pyLower name) = some w →
      isSupported w.currency = true →
        m.wallet_report name none =
          Except.ok
            { wallet := w.name
              wallet_currency := w.currency
              balance := w.balance
              balance_in_target := w.balance
              expenses := w.expenses.map fun e =>
                { description := e.description, amount := e.amount,
                  category := e.category, amount_in_target := e.amount }
              target_currency := w.currency }) := by
  constructor
  · intro h tc
    simp only [ExpenseManager.wallet_report, ExpenseManager.get_wallet, h]
    rfl
  · intro w hw hc
    simp only [ExpenseManager.wallet_report, ExpenseManager.get_wallet, hw,
      ok_bind, validate_currency, hc, if_true,
      convert_eq_ok _ _ _ hc hc, convertValue, if_pos rfl,
      reportExpenses_self w.currency hc w.expenses]
    rfl

/-- Refutation of C7 as stated: a wallet deserialized with the unsupported
currency "XXX" exists in the registry, yet `wallet_report` without a target
fails with `CurrencyNotSupported` instead of returning a report with
`balance_in_target == balance`. -/
theorem wallet_report_counterexample :
    (ExpenseManager.init (some { wallets :=
        [{ name := "Mystery", currency := "XXX", balance := some 1,
           expenses := some [] }] })).get_wallet "Mystery" =
      Except.ok { name := "Mystery", currency := "XXX", balance := 1,
                  expenses := [] } ∧
    (ExpenseManager.init (some { wallets :=
        [{ name := "Mystery", currency := "XXX", balance := some 1,
           expenses := some [] }] })).wallet_report "Mystery" none =
      Except.error (AppError.CurrencyNotSupported "XXX") := by
  constructor <;> rfl

/-- Witness for C7: defaulted report on an existing USD wallet, and the
`WalletNotFound` propagation for a missing name. -/
theorem wallet_report_default_spec_witness :
    (ExpenseManager.init (some { wallets :=
        [{ name := "Personal", currency := "USD", balance := some 1000,
           expenses := some [{ description := "Groceries", amount := 120,
                               category := some "food" }] }] })).wallet_report
      "Personal" none =
      Except.ok
        { wallet := "Personal"
          wallet_currency := "USD"
          balance := 1000
          balance_in_target := 1000
          expenses := [{ description := "Groceries", amount := 120,
                         category := "food", amount_in_target := 120 }]
          target_currency := "USD" } ∧
    (ExpenseManager.init (some { wallets :=
        [{ name := "Personal", currency := "USD", balance := some 1000,
           expenses := some [{ description := "Groceries", amount := 120,
                               category := some "food" }] }] })).wallet_report
      "Nope" (some "EUR") =
      Except.error (AppError.WalletNotFound "Nope") := by
  constructor
  · exact (wallet_report_default_spec _ "Personal").2
      { name := "Personal", currency := "USD", balance := 1000,
        expenses := [{ description := "Groceries", amount := 120,
                       category := "food" }] } rfl (by decide)
  · exact (wallet_report_default_spec _ "Nope").1 (by rfl) (some "EUR")

theorem walletOfData_walletToData (w : Wallet) :
    walletOfData (walletToData w) = w := by
  cases w with
  | mk name currency balance expenses =>
    simp only [walletToData, walletOfData, Option.getD_some, List.map_map]
    congr 1
    induction expenses with
    | nil => rfl
    | cons e rest ih => simp [ih, Function.comp]

theorem dictInsert_not_mem (d : List (String × Wallet)) (k : String) (v : Wallet)
    (h : ∀ p ∈ d, p.1 ≠ k) : dictInsert d k v = d ++ [(k, v)] := by
  have hany : d.any (fun p => p.1 = k) = false := by
    simp only [List.any_eq_false, decide_eq_true_eq]
    exact h
  simp [dictInsert, hany]

theorem foldl_insert_round (l : List (String × Wallet)) :
    ∀ acc : List (String × Wallet),
      (∀ p ∈ l, p.1 = pyLower p.2.name) →
      (((acc ++ l).map Prod.fst)).Nodup →
      ((l.map (fun p => p.2)).map walletToData).foldl
        (fun d wd => dictInsert d (pyLower (walletOfData wd).name)
          (walletOfData wd)) acc = acc ++ l := by
  induction l with
  | nil => intro acc _ _; simp
  | cons p rest ih =>
    intro acc hkeys hnodup
    simp only [List.map_cons, List.foldl_cons, walletOfData_walletToData]
    have hk : pyLower p.2.name = p.1 := (hkeys p (by simp)).symm
    rw [hk]
    have hmem : ((acc.map Prod.fst) ++ p.1 :: (rest.map Prod.fst)).Nodup := by
      simpa using hnodup
    have hdisj := (List.nodup_append.mp hmem).2.2
    have hnotin : ∀ q ∈ acc, q.1 ≠ p.1 := by
      intro q hq heq
      exact hdisj (List.mem_map_of_mem Prod.fst hq) (heq ▸ List.mem_cons_self _ _)
    rw [dictInsert_not_mem acc p.1 p.2 hnotin]
    have hkeys2 : ∀ q ∈ rest, q.1 = pyLower q.2.name :=
      fun q hq => hkeys q (by simp [hq])
    have hnodup2 : (((acc ++ [(p.1, p.2)]) ++ rest).map Prod.fst).Nodup := by
      simpa [List.append_assoc] using hnodup
    have := ih (acc ++ [(p.1, p.2)]) hkeys2 hnodup2
    simpa [List.append_assoc] using this



/-- C9: serializing and deserializing round-trip the registry: rebuilding a
manager from `to_dict`'s output yields an equal registry (under the
registry invariants: keys are the lower-cased wallet names and are
distinct), and the empty snapshot re-serializes to itself identically. -/
theorem serialize_round_trip (m : ExpenseManager)
    (hkeys : ∀ p ∈ m.wallets, p.1 = pyLower p.2.name)
    (hnodup : (m.wallets.map Prod.fst).Nodup) :
    ExpenseManager.init (some m.to_dict) = m ∧
    (ExpenseManager.init (some { wallets := [] })).to_dict =
      { wallets := ([] : List WalletData) } := by
  refine ⟨?_, rfl⟩
  have h := foldl_insert_round m.wallets [] hkeys (by simpa using hnodup)
  simp only [List.nil_append] at h
  simp only [ExpenseManager.init, ExpenseManager.to_dict,
    ExpenseManager.list_wallets, Option.getD_some, h]

/-- Witness for C9 on a concrete two-wallet registry. -/
theorem serialize_round_trip_witness :
    ExpenseManager.init
        (some (ExpenseManager.mk
          [("personal",
            { name := "Personal", currency := "USD", balance := 1000,
              expenses := [{ description := "Groceries", amount := 120,
                             category := "food" }] }),
           ("euros",
            { name := "Euros", currency := "EUR", balance := 500,
              expenses := [] })]).to_dict) =
      ExpenseManager.mk
        [("personal",
          { name := "Personal", currency := "USD", balance := 1000,
            expenses := [{ description := "Groceries", amount := 120,
                           category := "food" }] }),
         ("euros",
          { name := "Euros", currency := "EUR", balance := 500,
            expenses := [] })] := by
  exact (serialize_round_trip _ (by decide) (by decide)).1

/-- C10: deserializing a snapshot holding two wallets whose names collide
after lower-casing silently keeps only the later entry, and re-serializing
emits just that surviving wallet. -/
theorem deserialize_duplicate_last_wins (wd1 wd2 : WalletData)
    (h : pyLower wd1.name = pyLower wd2.name) :
    (ExpenseManager.init (some { wallets := [wd1, wd2] })).wallets =
      [(pyLower wd2.name, walletOfData wd2)] ∧
    (ExpenseManager.init (some { wallets := [wd1, wd2] })).to_dict =
      { wallets := [walletToData (walletOfData wd2)] } := by
  have hfirst :
      (ExpenseManager.init (some { wallets := [wd1, wd2] })).wallets =
        [(pyLower wd2.name, walletOfData wd2)] := by
    simp [ExpenseManager.init, dictInsert, walletOfData, h]
  refine ⟨hfirst, ?_⟩
  simp only [ExpenseManager.to_dict, ExpenseManager.list_wallets, hfirst]
  rfl

/-- Witness for C10: "Personal" then "PERSONAL" collide; only the later
entry (balance 7) survives deserialization and re-serialization. -/
theorem deserialize_duplicate_last_wins_witness :
    (ExpenseManager.init (some { wallets :=
        [{ name := "Personal", currency := "USD", balance := some 3,
           expenses := some [] },
         { name := "PERSONAL", currency := "EUR", balance := some 7,
           expenses := some [] }] })).wallets =
      [(pyLower "PERSONAL",
        walletOfData { name := "PERSONAL", currency := "EUR",
                       balance := some 7, expenses := some [] })] := by
  exact (deserialize_duplicate_last_wins
    { name := "Personal", currency := "USD", balance := some 3,
      expenses := some [] }
    { name := "PERSONAL", currency := "EUR", balance := some 7,
      expenses := some [] } (by decide)).1

end ExpenseApp
